import Mathlib

/-!
Verification of the book-query tool layer of the stateless MCP book server
(`server3.py`).  The four tools are pure functions over a fixed in-memory
list of ten book records; we embed the records and the four tool bodies
directly and prove the specified properties about them.

Ratings are one-decimal floating-point literals in the source; we model
`float` by `ℚ`, reading each literal as its exact decimal value
(`mkRat 45 10` for `4.5`, and so on).  Conversion of these decimals to
double precision is injective and monotone, so every comparison the
program performs (`==` on genre strings and years, `>` between a rating
and a threshold literal) takes the same branch over doubles as over these
rationals, and the average is the same `sum / count` expression in either
arithmetic.
-/

/-- A record of `BOOKS_DATABASE` (the Pydantic `Book` model): id, title,
author, genre, year, isbn, available, rating. -/
structure Book where
  id : Int
  title : String
  author : String
  genre : String
  year : Int
  isbn : String
  available : Bool
  rating : ℚ
deriving DecidableEq, Repr

/-- The fixed in-memory collection `BOOKS_DATABASE` of `server3.py`,
in source order. -/
def BOOKS_DATABASE : List Book :=
  [ { id := 1, title := "The Great Gatsby", author := "F. Scott Fitzgerald",
      genre := "Classic Fiction", year := 1925, isbn := "978-0743273565",
      available := true, rating := mkRat 45 10 },
    { id := 2, title := "To Kill a Mockingbird", author := "Harper Lee",
      genre := "Classic Fiction", year := 1960, isbn := "978-0446310789",
      available := true, rating := mkRat 48 10 },
    { id := 3, title := "1984", author := "George Orwell",
      genre := "Dystopian Fiction", year := 1949, isbn := "978-0451524935",
      available := false, rating := mkRat 47 10 },
    { id := 4, title := "Pride and Prejudice", author := "Jane Austen",
      genre := "Romance", year := 1813, isbn := "978-0141439518",
      available := true, rating := mkRat 46 10 },
    { id := 5, title := "The Catcher in the Rye", author := "J.D. Salinger",
      genre := "Classic Fiction", year := 1951, isbn := "978-0316769488",
      available := true, rating := mkRat 42 10 },
    { id := 6, title := "Brave New World", author := "Aldous Huxley",
      genre := "Dystopian Fiction", year := 1932, isbn := "978-0060850524",
      available := true, rating := mkRat 44 10 },
    { id := 7, title := "The Hobbit", author := "J.R.R. Tolkien",
      genre := "Fantasy", year := 1937, isbn := "978-0547928227",
      available := false, rating := mkRat 49 10 },
    { id := 8, title := "Fahrenheit 451", author := "Ray Bradbury",
      genre := "Dystopian Fiction", year := 1953, isbn := "978-1451673319",
      available := true, rating := mkRat 43 10 },
    { id := 9, title := "Dune", author := "Frank Herbert",
      genre := "Science Fiction", year := 1965, isbn := "978-0441172719",
      available := true, rating := mkRat 47 10 },
    { id := 10, title := "The Lord of the Rings", author := "J.R.R. Tolkien",
      genre := "Fantasy", year := 1954, isbn := "978-0544003415",
      available := true, rating := mkRat 49 10 } ]

/-- Result model `AverageRatingResult`: average rating paired with the
queried genre. -/
structure AverageRatingResult where
  average_rating : ℚ
  genre : String
deriving DecidableEq, Repr

/-- Tool `get_average_rating_by_genre`, parameterised by the database it
scans (the source closes over the global `BOOKS_DATABASE`):
filter by exact genre equality; if empty return `0.0` with the genre,
otherwise the sum of ratings divided by the count. -/
def get_average_rating_by_genre_on (db : List Book) (genre : String) :
    AverageRatingResult :=
  let books := db.filter (fun b => b.genre == genre)
  if books.isEmpty then
    { average_rating := 0.0, genre := genre }
  else
    { average_rating := (books.map Book.rating).sum / (books.length : ℚ),
      genre := genre }

/-- `get_average_rating_by_genre` as invoked: over `BOOKS_DATABASE`. -/
def get_average_rating_by_genre (genre : String) : AverageRatingResult :=
  get_average_rating_by_genre_on BOOKS_DATABASE genre

/-- Tool `get_books_by_genre` over an explicit database: all records whose
`genre` field equals the argument. -/
def get_books_by_genre_on (db : List Book) (genre : String) : List Book :=
  db.filter (fun b => b.genre == genre)

/-- `get_books_by_genre` as invoked: over `BOOKS_DATABASE`. -/
def get_books_by_genre (genre : String) : List Book :=
  get_books_by_genre_on BOOKS_DATABASE genre

/-- Tool `get_books_by_rating_above` over an explicit database: all records
with `rating` strictly greater than the argument. -/
def get_books_by_rating_above_on (db : List Book) (rating : ℚ) : List Book :=
  db.filter (fun b => rating < b.rating)

/-- `get_books_by_rating_above` as invoked: over `BOOKS_DATABASE`. -/
def get_books_by_rating_above (rating : ℚ) : List Book :=
  get_books_by_rating_above_on BOOKS_DATABASE rating

/-- Tool `get_books_by_year` over an explicit database: all records whose
`year` field equals the argument. -/
def get_books_by_year_on (db : List Book) (year : Int) : List Book :=
  db.filter (fun b => b.year == year)

/-- `get_books_by_year` as invoked: over `BOOKS_DATABASE`. -/
def get_books_by_year (year : Int) : List Book :=
  get_books_by_year_on BOOKS_DATABASE year

/-- The boolean genre test the code performs agrees with propositional
string equality. -/
theorem genreBeq_eq_decide (b : Book) (g : String) :
    (b.genre == g) = decide (b.genre = g) := by
  cases h : decide (b.genre = g)
  · simp at h; simp [h]
  · simp at h; simp [h]

/-- The boolean year test the code performs agrees with propositional
integer equality. -/
theorem yearBeq_eq_decide (b : Book) (y : Int) :
    (b.year == y) = decide (b.year = y) := by
  cases h : decide (b.year = y)
  · simp at h; simp [h]
  · simp at h; simp [h]

/-- The genre filter the code runs selects exactly the records whose
`genre` equals the query, in the propositional sense. -/
theorem filter_genre_eq (db : List Book) (g : String) :
    db.filter (fun b => b.genre == g) =
      db.filter (fun b => decide (b.genre = g)) := by
  refine List.filter_congr ?_
  intro b _
  exact genreBeq_eq_decide b g

example : (get_books_by_genre "Fantasy").map Book.title =
    ["The Hobbit", "The Lord of the Rings"] := by decide

example : get_average_rating_by_genre "Fantasy" =
    { average_rating := mkRat 49 10, genre := "Fantasy" } := by
  simp +decide only [get_average_rating_by_genre, get_average_rating_by_genre_on,
    BOOKS_DATABASE, List.filter_cons, List.filter_nil]
  norm_num [mkRat]

/-- C1: for every genre `g` matching at least one record,
`AverageRatingByGenre(g)` returns the arithmetic mean (sum divided by
count) of the ratings of exactly the records whose genre equals `g`,
paired with `g` itself. -/
theorem avg_rating_matched_is_mean (g : String)
    (h : ∃ b ∈ BOOKS_DATABASE, b.genre = g) :
    (get_average_rating_by_genre g).average_rating =
      ((BOOKS_DATABASE.filter (fun b => decide (b.genre = g))).map
          Book.rating).sum /
        ((BOOKS_DATABASE.filter (fun b => decide (b.genre = g))).length : ℚ) ∧
    (get_average_rating_by_genre g).genre = g := by
  obtain ⟨b, hb, hg⟩ := h
  have hmem : b ∈ BOOKS_DATABASE.filter (fun b => b.genre == g) :=
    List.mem_filter.mpr ⟨hb, by simp [hg]⟩
  have hne : (BOOKS_DATABASE.filter (fun b => b.genre == g)).isEmpty = false := by
    cases hf : (BOOKS_DATABASE.filter (fun b => b.genre == g)).isEmpty
    · rfl
    · rw [List.isEmpty_iff.mp hf] at hmem; cases hmem
  rw [get_average_rating_by_genre, get_average_rating_by_genre_on]
  simp only [hne, Bool.false_eq_true, if_false]
  rw [filter_genre_eq]
  exact ⟨rfl, trivial⟩

/-- Witness for C1 at the concrete genre `"Fantasy"`. -/
theorem avg_rating_matched_is_mean_witness :
    (∃ b ∈ BOOKS_DATABASE, b.genre = "Fantasy") ∧
    ((get_average_rating_by_genre "Fantasy").average_rating =
      ((BOOKS_DATABASE.filter (fun b => decide (b.genre = "Fantasy"))).map
          Book.rating).sum /
        ((BOOKS_DATABASE.filter
            (fun b => decide (b.genre = "Fantasy"))).length : ℚ) ∧
    (get_average_rating_by_genre "Fantasy").genre = "Fantasy") :=
  ⟨by decide, avg_rating_matched_is_mean "Fantasy" (by decide)⟩

/-- C2: for every genre `g` matching no record, `AverageRatingByGenre(g)`
returns average `0.0` paired with `g` (and does not fail). -/
theorem avg_rating_unmatched_zero (g : String)
    (h : ∀ b ∈ BOOKS_DATABASE, b.genre ≠ g) :
    get_average_rating_by_genre g =
      { average_rating := 0.0, genre := g } := by
  have hnil : BOOKS_DATABASE.filter (fun b => b.genre == g) = [] := by
    refine List.filter_eq_nil_iff.mpr ?_
    intro b hb
    simp [h b hb]
  rw [get_average_rating_by_genre, get_average_rating_by_genre_on]
  simp only [hnil, List.isEmpty_nil, if_true]

/-- Witness for C2 at the concrete genre `"Horror"`, which no record has. -/
theorem avg_rating_unmatched_zero_witness :
    (∀ b ∈ BOOKS_DATABASE, b.genre ≠ "Horror") ∧
    get_average_rating_by_genre "Horror" =
      { average_rating := 0.0, genre := "Horror" } :=
  ⟨by decide, avg_rating_unmatched_zero "Horror" (by decide)⟩

/-- C3: `BooksByRatingAbove(r)` returns exactly the records with rating
strictly greater than `r` (strict boundary, empty when none qualify); at
`4.8` exactly "The Hobbit" and "The Lord of the Rings" (rating `4.9`),
and at `4.9` the empty sequence. -/
theorem books_by_rating_above_strict :
    (∀ (r : ℚ) (b : Book),
      b ∈ get_books_by_rating_above r ↔ b ∈ BOOKS_DATABASE ∧ r < b.rating) ∧
    (get_books_by_rating_above (mkRat 48 10)).map Book.title =
      ["The Hobbit", "The Lord of the Rings"] ∧
    (∀ b ∈ get_books_by_rating_above (mkRat 48 10),
      b.rating = mkRat 49 10) ∧
    get_books_by_rating_above (mkRat 49 10) = [] := by
  refine ⟨?_, by decide, by decide, by decide⟩
  intro r b
  rw [get_books_by_rating_above, get_books_by_rating_above_on,
    List.mem_filter]
  simp

/-- C4: `BooksByGenre(g)` returns exactly the records whose `genre` equals
`g` (case-sensitive string equality, empty when none match); at
`"Fantasy"` exactly "The Hobbit" and "The Lord of the Rings". -/
theorem books_by_genre_exact :
    (∀ (g : String) (b : Book),
      b ∈ get_books_by_genre g ↔ b ∈ BOOKS_DATABASE ∧ b.genre = g) ∧
    (get_books_by_genre "Fantasy").map Book.title =
      ["The Hobbit", "The Lord of the Rings"] := by
  refine ⟨?_, by decide⟩
  intro g b
  rw [get_books_by_genre, get_books_by_genre_on, List.mem_filter]
  simp

/-- C5: `BooksByYear(y)` returns exactly the records whose `year` equals
`y` (empty when none match); at `1949` exactly the record titled "1984",
and at `2000` the empty sequence. -/
theorem books_by_year_exact :
    (∀ (y : Int) (b : Book),
      b ∈ get_books_by_year y ↔ b ∈ BOOKS_DATABASE ∧ b.year = y) ∧
    (get_books_by_year 1949).map Book.title = ["1984"] ∧
    get_books_by_year 2000 = [] := by
  refine ⟨?_, by decide, by decide⟩
  intro y b
  rw [get_books_by_year, get_books_by_year_on, List.mem_filter]
  simp

/-- Division as Python performs it: raises `ZeroDivisionError` on a zero
denominator, modelled as `none`. -/
def pyDiv (a b : ℚ) : Option ℚ :=
  if b = 0 then none else some (a / b)

/-- `get_average_rating_by_genre` with its single fallible operation (the
division by the match count) made explicit: `none` exactly when that
division would raise.  The three list tools contain no fallible
operation at all (a list comprehension over a fixed list cannot fail). -/
def get_average_rating_by_genre_checked (genre : String) :
    Option AverageRatingResult :=
  let books := BOOKS_DATABASE.filter (fun b => b.genre == genre)
  if books.isEmpty then
    some { average_rating := 0.0, genre := genre }
  else
    (pyDiv ((books.map Book.rating).sum) ((books.length : ℚ))).map
      (fun avg => { average_rating := avg, genre := genre })

/-- C6: every input to every tool yields a defined (possibly empty or
zero-valued) result and no internal error branch is reachable: the one
fallible operation (the average's division) never divides by zero, and
unmatched inputs yield the zero/empty results rather than failures. -/
theorem tools_total_no_error :
    ∀ (g : String) (r : ℚ) (y : Int),
      get_average_rating_by_genre_checked g =
        some (get_average_rating_by_genre g) ∧
      ((∀ b ∈ BOOKS_DATABASE, b.genre ≠ g) →
        get_average_rating_by_genre g =
            { average_rating := 0.0, genre := g } ∧
          get_books_by_genre g = []) ∧
      ((∀ b ∈ BOOKS_DATABASE, ¬ r < b.rating) →
        get_books_by_rating_above r = []) ∧
      ((∀ b ∈ BOOKS_DATABASE, b.year ≠ y) →
        get_books_by_year y = []) := by
  intro g r y
  refine ⟨?_, ?_, ?_, ?_⟩
  · rw [get_average_rating_by_genre_checked, get_average_rating_by_genre,
      get_average_rating_by_genre_on]
    cases hf : (BOOKS_DATABASE.filter (fun b => b.genre == g)).isEmpty
    · have hlen : (BOOKS_DATABASE.filter (fun b => b.genre == g)).length ≠ 0 := by
        intro h0
        rw [List.length_eq_zero.mp h0] at hf
        exact Bool.noConfusion hf
      have hq : ((BOOKS_DATABASE.filter
          (fun b => b.genre == g)).length : ℚ) ≠ 0 := by
        exact_mod_cast Nat.cast_ne_zero.mpr hlen
      simp only [Bool.false_eq_true, if_false, pyDiv, hq, Option.map_some]
      rfl
    · simp only [if_true]
  · intro h
    refine ⟨avg_rating_unmatched_zero g h, ?_⟩
    rw [get_books_by_genre, get_books_by_genre_on]
    refine List.filter_eq_nil_iff.mpr ?_
    intro b hb
    simp [h b hb]
  · intro h
    rw [get_books_by_rating_above, get_books_by_rating_above_on]
    refine List.filter_eq_nil_iff.mpr ?_
    intro b hb
    simp [h b hb]
  · intro h
    rw [get_books_by_year, get_books_by_year_on]
    refine List.filter_eq_nil_iff.mpr ?_
    intro b hb
    simp [h b hb]

/-- Witness for C6 at concrete inputs: genre `"Horror"`, threshold `5`,
year `2000`, none of which match any record. -/
theorem tools_total_no_error_witness :
    get_average_rating_by_genre_checked "Horror" =
      some (get_average_rating_by_genre "Horror") ∧
    (get_average_rating_by_genre "Horror" =
        { average_rating := 0.0, genre := "Horror" } ∧
      get_books_by_genre "Horror" = []) ∧
    get_books_by_rating_above 5 = [] ∧
    get_books_by_year 2000 = [] := by
  obtain ⟨h1, h2, h3, h4⟩ := tools_total_no_error "Horror" 5 2000
  exact ⟨h1, h2 (by decide), h3 (by decide), h4 (by decide)⟩

/-- One observable invocation of a tool against the server's store: the
store (the list bound to `BOOKS_DATABASE`) is the state an invocation
reads, and the state it leaves behind is returned alongside the result.
The tool bodies only run list comprehensions over the store, which
allocate fresh lists and never assign to the store. -/
def invoke_avg (g : String) (db : List Book) :
    AverageRatingResult × List Book :=
  (get_average_rating_by_genre_on db g, db)

/-- Invocation of `get_books_by_genre` as a state transition. -/
def invoke_by_genre (g : String) (db : List Book) :
    List Book × List Book :=
  (get_books_by_genre_on db g, db)

/-- Invocation of `get_books_by_rating_above` as a state transition. -/
def invoke_by_rating_above (r : ℚ) (db : List Book) :
    List Book × List Book :=
  (get_books_by_rating_above_on db r, db)

/-- Invocation of `get_books_by_year` as a state transition. -/
def invoke_by_year (y : Int) (db : List Book) :
    List Book × List Book :=
  (get_books_by_year_on db y, db)

/-- C7: invoking any of the four tools twice in succession with the same
input — the second call running against whatever store the first call
left behind — yields the same result both times. -/
theorem tools_idempotent (g : String) (r : ℚ) (y : Int) :
    (invoke_avg g (invoke_avg g BOOKS_DATABASE).2).1 =
      (invoke_avg g BOOKS_DATABASE).1 ∧
    (invoke_by_genre g (invoke_by_genre g BOOKS_DATABASE).2).1 =
      (invoke_by_genre g BOOKS_DATABASE).1 ∧
    (invoke_by_rating_above r (invoke_by_rating_above r BOOKS_DATABASE).2).1 =
      (invoke_by_rating_above r BOOKS_DATABASE).1 ∧
    (invoke_by_year y (invoke_by_year y BOOKS_DATABASE).2).1 =
      (invoke_by_year y BOOKS_DATABASE).1 :=
  ⟨rfl, rfl, rfl, rfl⟩

/-- C8: the store is identical — same records, same values, same order —
before and after any invocation of any of the four tools. -/
theorem store_never_mutated (g : String) (r : ℚ) (y : Int) :
    (invoke_avg g BOOKS_DATABASE).2 = BOOKS_DATABASE ∧
    (invoke_by_genre g BOOKS_DATABASE).2 = BOOKS_DATABASE ∧
    (invoke_by_rating_above r BOOKS_DATABASE).2 = BOOKS_DATABASE ∧
    (invoke_by_year y BOOKS_DATABASE).2 = BOOKS_DATABASE :=
  ⟨rfl, rfl, rfl, rfl⟩

/-- C9: the fixed collection has exactly ten records; ids are positive and
pairwise distinct; title, author, genre and isbn are non-empty. -/
theorem database_invariants :
    BOOKS_DATABASE.length = 10 ∧
    (∀ b ∈ BOOKS_DATABASE, 0 < b.id) ∧
    (BOOKS_DATABASE.map Book.id).Nodup ∧
    (∀ b ∈ BOOKS_DATABASE,
      b.title ≠ "" ∧ b.author ≠ "" ∧ b.genre ≠ "" ∧ b.isbn ≠ "") := by
  refine ⟨by decide, by decide, by decide, by decide⟩

/-- C10: each record-returning tool's output is a sublist of the fixed
collection: relative order is preserved and no element occurs more often
than it does in the collection. -/
theorem tools_return_sublists (g : String) (r : ℚ) (y : Int) :
    (get_books_by_genre g).Sublist BOOKS_DATABASE ∧
    (get_books_by_rating_above r).Sublist BOOKS_DATABASE ∧
    (get_books_by_year y).Sublist BOOKS_DATABASE := by
  rw [get_books_by_genre, get_books_by_genre_on,
    get_books_by_rating_above, get_books_by_rating_above_on,
    get_books_by_year, get_books_by_year_on]
  exact ⟨List.filter_sublist BOOKS_DATABASE,
    List.filter_sublist BOOKS_DATABASE,
    List.filter_sublist BOOKS_DATABASE⟩
